import Mathlib

/-!
Verification of the cFS MCP interface application (request pipeline and
safety-gating engine).  The definitions below are a shallow embedding of
`mcp_safety_utils.c`, `mcp_command_handlers.c` and `mcp_interface_app.c`:
C strings become `List Char`, the global `MCP_INTERFACE_AppData` becomes an
explicit `AppState` value threaded through the functions, unsigned 32-bit
arithmetic is `Nat` with explicit reduction modulo 2^32, and the external
cFE / socket / filesystem collaborators are abstracted into an `Env` record
of oracle functions.  Buffer-bounded C string operations (strncpy, snprintf,
strncat) are embedded with their truncation behavior made explicit.
-/

namespace MCP

/-- C byte strings are modelled as lists of characters. -/
abbrev Str := List Char

/-! ## Constants from mcp_interface_app.h -/

def MCP_MAX_JSON_SIZE : Nat := 4096
def MCP_MAX_CLIENTS : Nat := 4
def MCP_MAX_APP_NAME_LEN : Nat := 20
def MCP_MAX_CMD_NAME_LEN : Nat := 32

def MCP_CMD_SEND_COMMAND : Int := 0
def MCP_CMD_GET_TELEMETRY : Int := 1
def MCP_CMD_GET_SYSTEM_STATUS : Int := 2
def MCP_CMD_MANAGE_APP : Int := 3
def MCP_CMD_GET_FILE_LIST : Int := 4
def MCP_CMD_READ_FILE : Int := 5
def MCP_CMD_WRITE_FILE : Int := 6
def MCP_CMD_GET_EVENT_LOG : Int := 7
def MCP_CMD_EMERGENCY_STOP : Int := 8
def MCP_CMD_MAX : Int := 9

def MCP_INTERFACE_COMMAND_SUCCESS_INF_EID : Nat := 6
def MCP_INTERFACE_SAFETY_ERR_EID : Nat := 8

/-! ## 32-bit unsigned arithmetic -/

def UINT32_MOD : Nat := 4294967296

/-- Increment of a uint32 counter. -/
def inc32 (n : Nat) : Nat := (n + 1) % UINT32_MOD

/-- Decrement of a uint32 counter. -/
def dec32 (n : Nat) : Nat := (n + UINT32_MOD - 1) % UINT32_MOD

/-- Wrapping uint32 subtraction `a - b`. -/
def sub32 (a b : Nat) : Nat := (a + UINT32_MOD - b % UINT32_MOD) % UINT32_MOD

/-! ## C string primitives -/

/-- `strncpy`-style bounded copy into a zeroed buffer able to hold `cap`
characters plus the terminator: keeps at most `cap` characters. -/
def strncpyB (cap : Nat) (src : Str) : Str := src.take cap

/-- `snprintf` into a buffer of `cap` bytes: at most `cap - 1` characters
are kept. -/
def sn (cap : Nat) (s : Str) : Str := s.take (cap - 1)

/-- `strncat(dst, src, cap - strlen(dst) - 1)` on a buffer of `cap` bytes:
the result never exceeds `cap - 1` characters. -/
def strncatB (cap : Nat) (dst src : Str) : Str := dst ++ src.take (cap - 1 - dst.length)

/-- `strstr(hay, needle) != NULL`: does `needle` occur inside `hay`?
The needle is the first argument. -/
def hasSubstr (needle : Str) : Str → Bool
  | [] => needle.isPrefixOf ([] : Str)
  | c :: rest => needle.isPrefixOf (c :: rest) || hasSubstr needle rest

/-- The uppercase-and-truncate loops at the top of the safety checks:
`toupper` applied to at most `bound` characters of the source. -/
def upperize (bound : Nat) (s : Str) : Str := (s.take bound).map Char.toUpper

/-! ## Decimal and hexadecimal rendering (printf %u, %d, %X) -/

def digitChar (n : Nat) : Char := Char.ofNat (48 + n)

def decDigitsAux : Nat → Nat → Str → Str
  | 0, _, acc => acc
  | fuel + 1, n, acc =>
    if n < 10 then digitChar n :: acc
    else decDigitsAux fuel (n / 10) (digitChar (n % 10) :: acc)

/-- Decimal rendering of a natural number (printf `%u`). -/
def decDigits (n : Nat) : Str := decDigitsAux (n + 1) n []

def hexDigitChar (n : Nat) : Char :=
  if n < 10 then Char.ofNat (48 + n) else Char.ofNat (55 + n)

def hexDigitsAux : Nat → Nat → Str → Str
  | 0, _, acc => acc
  | fuel + 1, n, acc =>
    if n < 16 then hexDigitChar n :: acc
    else hexDigitsAux fuel (n / 16) (hexDigitChar (n % 16) :: acc)

/-- Uppercase hexadecimal rendering (printf `%X`). -/
def hexDigits (n : Nat) : Str := hexDigitsAux (n + 1) n []

/-- printf `%04X`. -/
def hex04 (n : Nat) : Str := List.replicate (4 - (hexDigits n).length) '0' ++ hexDigits n

/-- printf `%08X`. -/
def hex08 (n : Nat) : Str := List.replicate (8 - (hexDigits n).length) '0' ++ hexDigits n

/-- printf `%d` on a (possibly negative) integer. -/
def intStr (i : Int) : Str := if i < 0 then '-' :: decDigits i.natAbs else decDigits i.natAbs

/-- The `b ? "true" : "false"` idiom. -/
def boolStr (b : Bool) : Str := if b then "true".toList else "false".toList

/-! ## Data model: MCP_Request_t, MCP_Response_t, MCP_INTERFACE_AppData_t -/

structure MCP_Request where
  id : Nat
  type : Int
  app_name : Str
  command : Str
  params : Str
  require_confirmation : Bool
  is_critical : Bool
deriving DecidableEq

structure MCP_Response where
  id : Nat
  status : Int
  result : Str
  error_msg : Str
  timestamp : Nat
deriving DecidableEq

/-- The mutable fields of the global `MCP_INTERFACE_AppData` touched by the
request pipeline (socket handles live in `ConnState` below). -/
structure AppState where
  safetyMode : Bool
  debugMode : Bool
  cmdCounter : Nat
  errCounter : Nat
  activeClients : Nat
  requestCounter : Nat
  successCounter : Nat
  errorCounter : Nat
  criticalCommandCount : Nat
  lastCriticalCommandTime : Nat
deriving DecidableEq

/-- State after `MCP_INTERFACE_AppInit`. -/
def initAppState : AppState :=
  { safetyMode := true, debugMode := false, cmdCounter := 0, errCounter := 0,
    activeClients := 0, requestCounter := 0, successCounter := 0, errorCounter := 0,
    criticalCommandCount := 0, lastCriticalCommandTime := 0 }

/-- Result of `CFE_ES_GetAppInfo`. -/
structure AppInfo where
  appId : Nat
  executionCounter : Nat
  appState : Nat
  stackSize : Nat
  addressSpaceId : Nat

/-- One `readdir` entry together with the outcome of the `stat` call on it. -/
structure DirEnt where
  name : Str
  statOk : Bool
  size : Int
  isDir : Bool

/-- External collaborators (cFE software bus, executive services, the
filesystem): oracle functions abstracting the calls the handlers make. -/
structure Env where
  sbCreateOk : Bool
  sbSendStatus : Nat
  cfeEsCmdMid : Nat
  fmCmdMid : Nat
  cfeEsNoopCC : Nat
  cfeEsResetCountersCC : Nat
  fmGetDirListCC : Nat
  cfeMajorVersion : Nat
  cfeMinorVersion : Nat
  getAppInfo : Str → Option AppInfo
  openDir : Str → Option (List DirEnt)
  readFile : Str → Option Str

/-! ## Safety and validation (mcp_safety_utils.c) -/

/-- `critical_commands` table. -/
def critical_commands : List Str :=
  ["RESET", "RESTART", "STOP", "START", "DELETE", "FORMAT", "POWER_OFF", "REBOOT"].map
    String.toList

/-- `critical_apps` table. -/
def critical_apps : List Str :=
  ["CFE_ES", "CFE_EVS", "CFE_SB", "CFE_TIME", "CFE_TBL", "SCH_LAB"].map String.toList

/-- The protected-path test inside `MCP_INTERFACE_IsSafeCommand`. -/
def protectedParams (params : Str) : Bool :=
  hasSubstr "/boot".toList params || hasSubstr "/etc".toList params ||
  hasSubstr "/sys".toList params || hasSubstr "/proc".toList params

/-- `MCP_INTERFACE_IsSafeCommand`.  The first argument is the current
`SafetyMode`; the checks run in source order, each `return FALSE`
becoming a `false` branch.  The final emergency-stop test mirrors the
source: it is unreachable as a distinct outcome because both closing
returns yield TRUE. -/
def MCP_INTERFACE_IsSafeCommand (safetyMode : Bool) (r : MCP_Request) : Bool :=
  let upper_command := upperize (MCP_MAX_CMD_NAME_LEN - 1) r.command
  let upper_app := upperize (MCP_MAX_APP_NAME_LEN - 1) r.app_name
  if (critical_commands.any fun c => hasSubstr c upper_command) && safetyMode &&
      !r.require_confirmation then false
  else if (critical_apps.any fun a => upper_app == a) && safetyMode &&
      !r.require_confirmation then false
  else if (r.type == MCP_CMD_WRITE_FILE || r.type == MCP_CMD_READ_FILE) &&
      protectedParams r.params then false
  else if r.type == MCP_CMD_EMERGENCY_STOP then true
  else true

/-- `MCP_INTERFACE_RequiresConfirmation` (present in the source; not called
by the request pipeline). -/
def MCP_INTERFACE_RequiresConfirmation (r : MCP_Request) : Bool :=
  let upper_command := upperize (MCP_MAX_CMD_NAME_LEN - 1) r.command
  if critical_commands.any fun c => hasSubstr c upper_command then true
  else if r.type == MCP_CMD_WRITE_FILE then true
  else if r.type == MCP_CMD_MANAGE_APP &&
      (hasSubstr "start".toList r.params || hasSubstr "stop".toList r.params ||
       hasSubstr "restart".toList r.params) then true
  else false

/-- `MCP_INTERFACE_ValidateRequest`; `true` is `CFE_SUCCESS`, `false` is the
`CFE_ES_ERR_APPNAME` rejection code. -/
def MCP_INTERFACE_ValidateRequest (r : MCP_Request) : Bool :=
  if r.id == 0 then false
  else if MCP_CMD_MAX ≤ r.type then false
  else if (r.type == MCP_CMD_SEND_COMMAND || r.type == MCP_CMD_GET_TELEMETRY ||
           r.type == MCP_CMD_MANAGE_APP) &&
          (r.app_name.length == 0 || MCP_MAX_APP_NAME_LEN ≤ r.app_name.length) then false
  else if r.type == MCP_CMD_SEND_COMMAND &&
          (r.command.length == 0 || MCP_MAX_CMD_NAME_LEN ≤ r.command.length) then false
  else if MCP_MAX_JSON_SIZE ≤ r.params.length then false
  else true

/-- One decoded JSON object as cJSON hands it to `MCP_INTERFACE_ParseJSONRequest`:
`none` stands for a missing field or a field of the wrong type. -/
structure JSONFrame where
  id : Option Int
  type : Option Int
  app_name : Option Str
  command : Option Str
  params : Option Str
  require_confirmation : Option Bool
  is_critical : Option Bool

/-- `MCP_INTERFACE_ParseJSONRequest` on a successfully parsed JSON object:
`id` and `type` are required; each string field is copied with
`strncpy(dst, src, sizeof(dst) - 1)` into the zeroed request, i.e. silently
truncated to the buffer bound; booleans default to false. -/
def MCP_INTERFACE_ParseJSONRequest (f : JSONFrame) : Option MCP_Request :=
  match f.id with
  | none => none
  | some i =>
    match f.type with
    | none => none
    | some t =>
      some {
        id := (i % (UINT32_MOD : Int)).toNat
        type := t
        app_name := match f.app_name with
          | some s => strncpyB (MCP_MAX_APP_NAME_LEN - 1) s
          | none => []
        command := match f.command with
          | some s => strncpyB (MCP_MAX_CMD_NAME_LEN - 1) s
          | none => []
        params := match f.params with
          | some s => strncpyB (MCP_MAX_JSON_SIZE - 1) s
          | none => []
        require_confirmation := f.require_confirmation.getD false
        is_critical := f.is_critical.getD false }

/-! ## Command handlers (mcp_command_handlers.c)

Each handler mutates the passed-in response, possibly mutates the global
state, returns an int32 status (`ret`, with `true` for `CFE_SUCCESS`), and
may emit `CFE_EVS_SendEvent` notifications (collected as event ids). -/

structure HandlerOut where
  ret : Bool
  resp : MCP_Response
  st : AppState
  events : List Nat
deriving DecidableEq

/-- `response->status = -1` plus `strncpy(response->error_msg, msg, sizeof - 1)`. -/
def errResp (resp : MCP_Response) (msg : Str) : MCP_Response :=
  { resp with status := -1, error_msg := strncpyB 255 msg }

/-- `response->status = 0` plus `strncpy(response->result, s, sizeof - 1)`. -/
def okResp (resp : MCP_Response) (s : Str) : MCP_Response :=
  { resp with status := 0, result := strncpyB 4095 s }

/-- The command mapping block of `MCP_INTERFACE_HandleSendCommand`: either a
`(msg_id, cmd_code)` pair or the error message of the failing branch. -/
def mapCommand (env : Env) (r : MCP_Request) : (Nat × Nat) ⊕ Str :=
  if r.app_name == "CFE_ES".toList then
    if r.command == "NOOP".toList then Sum.inl (env.cfeEsCmdMid, env.cfeEsNoopCC)
    else if r.command == "RESET_COUNTERS".toList then
      Sum.inl (env.cfeEsCmdMid, env.cfeEsResetCountersCC)
    else
      Sum.inr ("Unknown command '".toList ++ r.command ++ "' for app '".toList ++
        r.app_name ++ "'".toList)
  else if r.app_name == "FM".toList then
    if r.command == "GET_DIR_LIST".toList then Sum.inl (env.fmCmdMid, env.fmGetDirListCC)
    else
      Sum.inr ("Unknown command '".toList ++ r.command ++ "' for app '".toList ++
        r.app_name ++ "'".toList)
  else Sum.inr ("Unknown app '".toList ++ r.app_name ++ "'".toList)

/-- `MCP_INTERFACE_HandleSendCommand`.  `time` is `CFE_TIME_GetTime().Seconds`. -/
def MCP_INTERFACE_HandleSendCommand (env : Env) (s : AppState) (time : Nat)
    (r : MCP_Request) (resp : MCP_Response) : HandlerOut :=
  if r.app_name.length == 0 then
    ⟨false, errResp resp "App name is required".toList, s, []⟩
  else if r.is_critical && decide (sub32 time s.lastCriticalCommandTime < 5) then
    ⟨false, errResp resp "Critical command rate limit exceeded".toList, s, []⟩
  else
    let s1 := if r.is_critical then
        { s with criticalCommandCount := inc32 s.criticalCommandCount,
                 lastCriticalCommandTime := time }
      else s
    let evs : List Nat := if r.is_critical then [MCP_INTERFACE_COMMAND_SUCCESS_INF_EID] else []
    match mapCommand env r with
    | Sum.inr emsg => ⟨false, errResp resp emsg, s1, evs⟩
    | Sum.inl (msg_id, cmd_code) =>
      if env.sbCreateOk then
        if env.sbSendStatus == 0 then
          let result_str := sn 512
            ("\x7b\"command_sent\": true, \"app\": \"".toList ++ r.app_name ++
             "\", \"command\": \"".toList ++ r.command ++
             "\", \"msg_id\": \"0x".toList ++ hex04 msg_id ++
             "\", \"cmd_code\": ".toList ++ decDigits cmd_code ++ "\x7d".toList)
          ⟨true, okResp resp result_str, s1, evs⟩
        else
          ⟨true, errResp resp ("Failed to send command, status = 0x".toList ++
            hex08 env.sbSendStatus), s1, evs⟩
      else
        ⟨true, errResp resp "Failed to create command message".toList, s1, evs⟩

/-- The `result_str` snprintf of `MCP_INTERFACE_HandleGetTelemetry` for the
MCP interface app itself, embedding the live counters and mode flags. -/
def telemetrySelfResult (s : AppState) (time : Nat) : Str :=
  sn 2048
    ("\x7b\"app_name\": \"MCP_INTERFACE\",\"timestamp\": ".toList ++ decDigits time ++
     ",\"cmd_counter\": ".toList ++ decDigits s.cmdCounter ++
     ",\"err_counter\": ".toList ++ decDigits s.errCounter ++
     ",\"active_clients\": ".toList ++ decDigits s.activeClients ++
     ",\"request_counter\": ".toList ++ decDigits s.requestCounter ++
     ",\"success_counter\": ".toList ++ decDigits s.successCounter ++
     ",\"error_counter\": ".toList ++ decDigits s.errorCounter ++
     ",\"safety_mode\": ".toList ++ boolStr s.safetyMode ++
     ",\"debug_mode\": ".toList ++ boolStr s.debugMode ++ "\x7d".toList)

/-- The `result_str` snprintf of `MCP_INTERFACE_HandleGetTelemetry` for any
other app: a telemetry-not-available report. -/
def telemetryOtherResult (app : Str) (time : Nat) : Str :=
  sn 2048
    ("\x7b\"app_name\": \"".toList ++ app ++
     "\",\"timestamp\": ".toList ++ decDigits time ++
     ",\"status\": \"telemetry_not_available\",\"message\": \"Telemetry retrieval for ".toList ++
     app ++ " not implemented yet\"\x7d".toList)

/-- `MCP_INTERFACE_HandleGetTelemetry`. -/
def MCP_INTERFACE_HandleGetTelemetry (env : Env) (s : AppState) (time : Nat)
    (r : MCP_Request) (resp : MCP_Response) : HandlerOut :=
  let result_str :=
    if r.app_name == "MCP_INTERFACE".toList then telemetrySelfResult s time
    else telemetryOtherResult r.app_name time
  ⟨true, okResp resp result_str, s, []⟩

/-- `MCP_INTERFACE_HandleGetSystemStatus`. -/
def MCP_INTERFACE_HandleGetSystemStatus (env : Env) (s : AppState) (time : Nat)
    (r : MCP_Request) (resp : MCP_Response) : HandlerOut :=
  let info := env.getAppInfo "MCP_INTERFACE".toList
  let appId := match info with | some a => a.appId | none => 0
  let execCtr := match info with | some a => a.executionCounter | none => 0
  let result_str := sn 3072
    ("\x7b\"system_status\": \x7b\"timestamp\": ".toList ++ decDigits time ++
     ",\"cfs_version\": \"cFE ".toList ++ decDigits env.cfeMajorVersion ++ ".".toList ++
     decDigits env.cfeMinorVersion ++
     "\",\"mcp_interface_status\": \x7b\"app_id\": ".toList ++ decDigits appId ++
     ",\"execution_counter\": ".toList ++ decDigits execCtr ++
     ",\"active_clients\": ".toList ++ decDigits s.activeClients ++
     ",\"total_requests\": ".toList ++ decDigits s.requestCounter ++
     ",\"successful_requests\": ".toList ++ decDigits s.successCounter ++
     ",\"failed_requests\": ".toList ++ decDigits s.errorCounter ++
     ",\"safety_mode\": ".toList ++ boolStr s.safetyMode ++
     ",\"debug_mode\": ".toList ++ boolStr s.debugMode ++
     "\x7d,\"memory_status\": \x7b\"available_memory\": \"unknown\",\"used_memory\": \"unknown\"\x7d,\"task_status\": \x7b\"total_tasks\": \"unknown\",\"active_tasks\": \"unknown\"\x7d\x7d\x7d".toList)
  ⟨true, okResp resp result_str, s, []⟩

/-- `MCP_INTERFACE_HandleManageApp`. -/
def MCP_INTERFACE_HandleManageApp (env : Env) (s : AppState) (time : Nat)
    (r : MCP_Request) (resp : MCP_Response) : HandlerOut :=
  if r.app_name.length == 0 then
    ⟨false, errResp resp "App name is required".toList, s, []⟩
  else if r.params == "\"start\"".toList then
    if !s.safetyMode || r.require_confirmation then
      let result_str := sn 512 ("\x7b\"action\": \"start\", \"app\": \"".toList ++
        r.app_name ++ "\", \"status\": \"not_implemented\"\x7d".toList)
      ⟨true, okResp resp result_str, s, [MCP_INTERFACE_COMMAND_SUCCESS_INF_EID]⟩
    else
      ⟨false, errResp resp "App start requires confirmation in safety mode".toList, s, []⟩
  else if r.params == "\"stop\"".toList then
    if !s.safetyMode || r.require_confirmation then
      let result_str := sn 512 ("\x7b\"action\": \"stop\", \"app\": \"".toList ++
        r.app_name ++ "\", \"status\": \"not_implemented\"\x7d".toList)
      ⟨true, okResp resp result_str, s, [MCP_INTERFACE_COMMAND_SUCCESS_INF_EID]⟩
    else
      ⟨false, errResp resp "App stop requires confirmation in safety mode".toList, s, []⟩
  else if r.params == "\"status\"".toList then
    let result_str :=
      match env.getAppInfo r.app_name with
      | some info => sn 512
          ("\x7b\"action\": \"status\",\"app\": \"".toList ++ r.app_name ++
           "\",\"app_id\": ".toList ++ decDigits info.appId ++
           ",\"execution_counter\": ".toList ++ decDigits info.executionCounter ++
           ",\"app_state\": ".toList ++ decDigits info.appState ++
           ",\"stack_size\": ".toList ++ decDigits info.stackSize ++
           ",\"address_space_id\": ".toList ++ decDigits info.addressSpaceId ++ "\x7d".toList)
      | none => sn 512
          ("\x7b\"action\": \"status\", \"app\": \"".toList ++ r.app_name ++
           "\", \"error\": \"App not found or error getting info\"\x7d".toList)
    ⟨true, okResp resp result_str, s, []⟩
  else
    ⟨false, errResp resp ("Unknown action in params: ".toList ++ r.params), s, []⟩

/-- Directory selection at the top of `MCP_INTERFACE_HandleGetFileList`:
default `/cf`, otherwise the params string with its JSON quotes stripped
through the bounded copy into `file_path[256]`. -/
def mkDirectory (params : Str) : Str :=
  if 2 < params.length then (strncpyB 255 (params.drop 1)).dropLast else "/cf".toList

/-- One file entry rendered into `file_info[256]`. -/
def fileEntryJson (e : DirEnt) : Str :=
  sn 256 ("\x7b\"name\": \"".toList ++ e.name ++ "\", \"size\": ".toList ++ intStr e.size ++
    ", \"type\": \"".toList ++ (if e.isDir then "directory".toList else "file".toList) ++
    "\"\x7d".toList)

/-- The readdir loop of `MCP_INTERFACE_HandleGetFileList` over `result_str[2048]`. -/
def fileListLoop : List DirEnt → Nat → Str → Str
  | [], _, buf => buf
  | e :: rest, count, buf =>
    if 50 ≤ count then buf
    else if e.name == ".".toList || e.name == "..".toList then fileListLoop rest count buf
    else if e.statOk then
      let buf1 := if 0 < count then strncatB 2048 buf ", ".toList else buf
      fileListLoop rest (count + 1) (strncatB 2048 buf1 (fileEntryJson e))
    else fileListLoop rest count buf

/-- `MCP_INTERFACE_HandleGetFileList`. -/
def MCP_INTERFACE_HandleGetFileList (env : Env) (s : AppState) (time : Nat)
    (r : MCP_Request) (resp : MCP_Response) : HandlerOut :=
  let directory := mkDirectory r.params
  match env.openDir directory with
  | none => ⟨false, errResp resp ("Failed to open directory: ".toList ++ directory), s, []⟩
  | some entries =>
    let buf := sn 2048 ("\x7b\"directory\": \"".toList ++ directory ++ "\", \"files\": [".toList)
    let buf1 := strncatB 2048 (fileListLoop entries 0 buf) "]\x7d".toList
    ⟨true, okResp resp buf1, s, []⟩

/-- `MCP_INTERFACE_HandleReadFile`. -/
def MCP_INTERFACE_HandleReadFile (env : Env) (s : AppState) (time : Nat)
    (r : MCP_Request) (resp : MCP_Response) : HandlerOut :=
  if r.params.length < 3 then
    ⟨false, errResp resp "File path is required".toList, s, []⟩
  else
    let file_path := (strncpyB 255 (r.params.drop 1)).dropLast
    if hasSubstr "..".toList file_path || !(file_path.head? == some '/') then
      ⟨false, errResp resp "Invalid file path".toList, s, []⟩
    else
      match env.readFile file_path with
      | none => ⟨false, errResp resp ("Failed to open file: ".toList ++ file_path), s, []⟩
      | some content =>
        let content1 := content.take 1023
        let result_str := sn 2048
          ("\x7b\"file_path\": \"".toList ++ file_path ++ "\", \"size\": ".toList ++
           decDigits content1.length ++ ", \"content\": \"".toList ++ content1 ++ "\"\x7d".toList)
        ⟨true, okResp resp result_str, s, []⟩

/-- `MCP_INTERFACE_HandleWriteFile`.  The unconfirmed-in-safe-mode branch
returns without sending any event; the standing-policy branch sends the
safety event and fails. -/
def MCP_INTERFACE_HandleWriteFile (env : Env) (s : AppState) (time : Nat)
    (r : MCP_Request) (resp : MCP_Response) : HandlerOut :=
  if s.safetyMode && !r.require_confirmation then
    ⟨false, errResp resp "File write requires confirmation in safety mode".toList, s, []⟩
  else
    ⟨false, errResp resp "File write operation not implemented for safety reasons".toList,
      s, [MCP_INTERFACE_SAFETY_ERR_EID]⟩

/-- `MCP_INTERFACE_HandleGetEventLog`. -/
def MCP_INTERFACE_HandleGetEventLog (env : Env) (s : AppState) (time : Nat)
    (r : MCP_Request) (resp : MCP_Response) : HandlerOut :=
  let result_str := sn 2048
    ("\x7b\"event_log\": \x7b\"timestamp\": ".toList ++ decDigits time ++
     ",\"message\": \"Event log access not fully implemented\",\"recent_events\": [\x7b\"id\": 1,\"app\": \"MCP_INTERFACE\",\"type\": \"INFO\",\"message\": \"MCP Interface App Started\"\x7d,\x7b\"id\": 2,\"app\": \"MCP_INTERFACE\",\"type\": \"INFO\",\"message\": \"Client connected\"\x7d]\x7d\x7d".toList)
  ⟨true, okResp resp result_str, s, []⟩

/-- `MCP_INTERFACE_HandleEmergencyStop`: logs the critical event, forces
`SafetyMode = TRUE`, reports success. -/
def MCP_INTERFACE_HandleEmergencyStop (env : Env) (s : AppState) (time : Nat)
    (r : MCP_Request) (resp : MCP_Response) : HandlerOut :=
  let result_str := sn 512
    ("\x7b\"emergency_stop\": \x7b\"timestamp\": ".toList ++ decDigits time ++
     ",\"status\": \"executed\",\"actions\": [\"safety_mode_enabled\", \"event_logged\"],\"message\": \"Emergency stop procedure initiated\"\x7d\x7d".toList)
  ⟨true, okResp resp result_str, { s with safetyMode := true }, [MCP_INTERFACE_SAFETY_ERR_EID]⟩

/-! ## Request pipeline (mcp_interface_app.c) -/

/-- The `switch (request->type)` dispatch inside `MCP_INTERFACE_HandleMCPRequest`. -/
def dispatchRequest (env : Env) (s : AppState) (time : Nat) (r : MCP_Request)
    (resp : MCP_Response) : HandlerOut :=
  if r.type == MCP_CMD_SEND_COMMAND then MCP_INTERFACE_HandleSendCommand env s time r resp
  else if r.type == MCP_CMD_GET_TELEMETRY then MCP_INTERFACE_HandleGetTelemetry env s time r resp
  else if r.type == MCP_CMD_GET_SYSTEM_STATUS then
    MCP_INTERFACE_HandleGetSystemStatus env s time r resp
  else if r.type == MCP_CMD_MANAGE_APP then MCP_INTERFACE_HandleManageApp env s time r resp
  else if r.type == MCP_CMD_GET_FILE_LIST then MCP_INTERFACE_HandleGetFileList env s time r resp
  else if r.type == MCP_CMD_READ_FILE then MCP_INTERFACE_HandleReadFile env s time r resp
  else if r.type == MCP_CMD_WRITE_FILE then MCP_INTERFACE_HandleWriteFile env s time r resp
  else if r.type == MCP_CMD_GET_EVENT_LOG then MCP_INTERFACE_HandleGetEventLog env s time r resp
  else if r.type == MCP_CMD_EMERGENCY_STOP then
    MCP_INTERFACE_HandleEmergencyStop env s time r resp
  else
    ⟨false, errResp resp ("Unknown command type: ".toList ++ intStr r.type), s, []⟩

/-- Outcome of processing one request: the response that is sent, the new
global state and the emitted event ids. -/
structure PipeOut where
  resp : MCP_Response
  st : AppState
  events : List Nat
deriving DecidableEq

/-- `MCP_INTERFACE_HandleMCPRequest`: zero-initialized response stamped with
the request id and the current time; validation failure and safety blocking
return before the dispatch switch; otherwise the handler runs and the
request/success/error counters are updated exactly once. -/
def MCP_INTERFACE_HandleMCPRequest (env : Env) (s : AppState) (time : Nat)
    (r : MCP_Request) : PipeOut :=
  let resp0 : MCP_Response := { id := r.id, status := 0, result := [], error_msg := [],
                                timestamp := time }
  if !MCP_INTERFACE_ValidateRequest r then
    ⟨errResp resp0 "Invalid request parameters".toList,
     { s with errorCounter := inc32 s.errorCounter }, []⟩
  else if !MCP_INTERFACE_IsSafeCommand s.safetyMode r then
    ⟨errResp resp0 "Command blocked by safety system".toList,
     { s with errorCounter := inc32 s.errorCounter }, [MCP_INTERFACE_SAFETY_ERR_EID]⟩
  else
    let h := dispatchRequest env s time r resp0
    let s1 := { h.st with requestCounter := inc32 h.st.requestCounter }
    let s2 := if h.ret && h.resp.status == 0 then
        { s1 with successCounter := inc32 s1.successCounter }
      else
        { s1 with errorCounter := inc32 s1.errorCounter }
    ⟨h.resp, s2, h.events⟩

/-! ## Response encoding (mcp_safety_utils.c) -/

/-- `MCP_INTERFACE_FormatJSONResponse`: the cJSON object construction and
printing is the external `enc` oracle; the function fails when cJSON fails
or when the printed form does not fit below `max_len`. -/
def MCP_INTERFACE_FormatJSONResponse (enc : MCP_Response → Option Str)
    (resp : MCP_Response) (max_len : Nat) : Option Str :=
  match enc resp with
  | none => none
  | some s => if max_len ≤ s.length then none else some s

/-- The fixed fallback frame of `MCP_INTERFACE_SendMCPResponse`, before the
snprintf bound is applied: only the response id, a failure status, a static
error message and the timestamp. -/
def fallbackFrame (id timestamp : Nat) : Str :=
  "\x7b\"id\": ".toList ++ decDigits id ++
  ", \"status\": -1, \"error\": \"Failed to format response\", \"timestamp\": ".toList ++
  decDigits timestamp ++ "\x7d".toList

/-- `MCP_INTERFACE_SendMCPResponse`, restricted to the frame it writes to the
socket: the formatted response if formatting succeeds, else the fallback
frame. -/
def MCP_INTERFACE_SendMCPResponse (enc : MCP_Response → Option Str)
    (resp : MCP_Response) : Str :=
  match MCP_INTERFACE_FormatJSONResponse enc resp MCP_MAX_JSON_SIZE with
  | some s => s
  | none => fallbackFrame resp.id resp.timestamp

/-! ## Connection table (mcp_interface_app.c, MCP_INTERFACE_ProcessMCPClients) -/

/-- The client-socket table and active-client counter. -/
structure ConnState where
  clientSockets : List Int
  activeClients : Nat
deriving DecidableEq

/-- State after `MCP_INTERFACE_InitSocket`: every slot holds -1. -/
def initConn : ConnState := ⟨[-1, -1, -1, -1], 0⟩

/-- The first free slot, as found by the accept loop. -/
def firstFree : List Int → Option Nat
  | [] => none
  | x :: xs => if x == -1 then some 0 else (firstFree xs).map (· + 1)

/-- Events of the connection-processing loop: a successful `accept` (the
returned descriptor is nonnegative), a disconnect or receive error on a
slot, data received on a slot (the table is untouched). -/
inductive ConnEvent where
  | accept (fd : Nat)
  | closeSlot (i : Nat)
  | dataReady (i : Nat)

/-- One event of `MCP_INTERFACE_ProcessMCPClients`: a new peer occupies the
first free slot (or is closed when the table is full); a disconnect or
receive error on an occupied slot frees it and decrements the counter. -/
def stepConn (s : ConnState) : ConnEvent → ConnState
  | ConnEvent.accept fd =>
    match firstFree s.clientSockets with
    | some j => ⟨s.clientSockets.set j (Int.ofNat fd), inc32 s.activeClients⟩
    | none => s
  | ConnEvent.closeSlot i =>
    match s.clientSockets.get? i with
    | some v => if v == -1 then s else ⟨s.clientSockets.set i (-1), dec32 s.activeClients⟩
    | none => s
  | ConnEvent.dataReady _ => s

/-- States reachable by the connection loop from initialization. -/
inductive ReachConn : ConnState → Prop
  | init : ReachConn initConn
  | step (s : ConnState) (e : ConnEvent) : ReachConn s → ReachConn (stepConn s e)

/-- Number of occupied (not -1) entries of the socket table. -/
def countOcc (l : List Int) : Nat := (l.filter (fun v => v != -1)).length

/-! ## Concrete instantiations used by the theorems below -/

/-- A concrete collaborator environment in which the software-bus send
succeeds and the optional lookups fail. -/
def env0 : Env :=
  { sbCreateOk := true, sbSendStatus := 0, cfeEsCmdMid := 0, fmCmdMid := 0,
    cfeEsNoopCC := 0, cfeEsResetCountersCC := 0, fmGetDirListCC := 0,
    cfeMajorVersion := 0, cfeMinorVersion := 0,
    getAppInfo := fun _ => none, openDir := fun _ => none, readFile := fun _ => none }

/-- The zero-initialized response stamped with an id and a time. -/
def respInit (id time : Nat) : MCP_Response :=
  { id := id, status := 0, result := [], error_msg := [], timestamp := time }

/-- An emergency-stop request whose command field contains the critical verb
STOP. -/
def rEmergStop : MCP_Request :=
  { id := 9, type := MCP_CMD_EMERGENCY_STOP, app_name := [], command := "STOP".toList,
    params := [], require_confirmation := false, is_critical := false }

/-- The spec scenario request: send command NOOP to CFE_ES, unconfirmed,
not flagged critical. -/
def rNoop : MCP_Request :=
  { id := 1, type := MCP_CMD_SEND_COMMAND, app_name := "CFE_ES".toList,
    command := "NOOP".toList, params := [], require_confirmation := false,
    is_critical := false }

/-- A send-command request that is critical by verb (RESET occurs in
RESET_COUNTERS) and by target app, confirmed, but with is_critical unset. -/
def rCritVerb : MCP_Request :=
  { id := 5, type := MCP_CMD_SEND_COMMAND, app_name := "CFE_ES".toList,
    command := "RESET_COUNTERS".toList, params := [], require_confirmation := true,
    is_critical := false }

/-- A state in which the last accepted critical command happened at time 10. -/
def sWindow : AppState := { initAppState with lastCriticalCommandTime := 10 }

/-- A write-file request without confirmation. -/
def rWrite : MCP_Request :=
  { id := 4, type := MCP_CMD_WRITE_FILE, app_name := [], command := [],
    params := "\"/cf/x.txt\"".toList, require_confirmation := false, is_critical := false }

/-- A get-telemetry request addressed to the MCP interface app itself. -/
def rTel1 : MCP_Request :=
  { id := 1, type := MCP_CMD_GET_TELEMETRY, app_name := "MCP_INTERFACE".toList,
    command := [], params := [], require_confirmation := false, is_critical := false }

/-- A get-telemetry request for an app other than MCP_INTERFACE. -/
def rTelFoo : MCP_Request :=
  { id := 1, type := MCP_CMD_GET_TELEMETRY, app_name := "FOO_APP".toList,
    command := [], params := [], require_confirmation := false, is_critical := false }

/-- `initAppState` with SafetyMode cleared (Permissive mode). -/
def permState : AppState := { initAppState with safetyMode := false }

/-- A JSON frame whose app_name field is 25 characters, above the 19
characters the request structure can hold. -/
def frame25 : JSONFrame :=
  { id := some 7, type := some MCP_CMD_GET_TELEMETRY,
    app_name := some (List.replicate 25 'A'), command := none, params := none,
    require_confirmation := none, is_critical := none }

/-- The request `frame25` decodes to: the app name silently truncated to the
19-character bound. -/
def req25 : MCP_Request :=
  { id := 7, type := MCP_CMD_GET_TELEMETRY, app_name := List.replicate 19 'A',
    command := [], params := [], require_confirmation := false, is_critical := false }

/-! ## Helper lemmas -/

theorem decDigitsAux_len : ∀ (fuel k n : Nat) (acc : Str), n < 10 ^ k → n < fuel → 1 ≤ k →
    (decDigitsAux fuel n acc).length ≤ k + acc.length := by
  intro fuel
  induction fuel with
  | zero => intro k n acc _ h2 _; omega
  | succ fuel ih =>
    intro k n acc h1 h2 hk
    by_cases h : n < 10
    · simp only [decDigitsAux, if_pos h, List.length_cons]
      omega
    · simp only [decDigitsAux, if_neg h]
      have hk2 : 2 ≤ k := by
        by_contra hc
        have hk1 : k = 1 := by omega
        subst hk1
        simp only [pow_one] at h1
        omega
      have hdiv : n / 10 < 10 ^ (k - 1) := by
        rw [Nat.div_lt_iff_lt_mul (by norm_num)]
        have : 10 ^ (k - 1) * 10 = 10 ^ k := by
          rw [← pow_succ]
          congr 1
          omega
        omega
      have hfuel : n / 10 < fuel := by
        have hlt : n / 10 < n := Nat.div_lt_self (by omega) (by norm_num)
        omega
      have := ih (k - 1) (n / 10) (digitChar (n % 10) :: acc) hdiv hfuel (by omega)
      simp only [List.length_cons] at this
      omega

theorem decDigits_len_le10 (n : Nat) (h : n < UINT32_MOD) : (decDigits n).length ≤ 10 := by
  have h10 : (10 : Nat) ^ 10 = 10000000000 := by norm_num
  have hn : n < 10 ^ 10 := by
    rw [h10]
    unfold UINT32_MOD at h
    omega
  have := decDigitsAux_len (n + 1) 10 n [] hn (by omega) (by omega)
  simpa [decDigits] using this

theorem fallbackFrame_len (id ts : Nat) (h1 : id < UINT32_MOD) (h2 : ts < UINT32_MOD) :
    (fallbackFrame id ts).length < MCP_MAX_JSON_SIZE := by
  have d1 := decDigits_len_le10 id h1
  have d2 := decDigits_len_le10 ts h2
  have e1 : ("\x7b\"id\": ".toList).length = 7 := by decide
  have e2 : ((", \"status\": -1, \"error\": \"Failed to format response\", \"timestamp\": ").toList).length = 67 := by decide
  have e3 : ("\x7d".toList).length = 1 := by decide
  simp only [fallbackFrame, List.length_append, e1, e2, e3, MCP_MAX_JSON_SIZE]
  omega

/-- A list keeps its leading segment through `List.take` as long as the
segment is short enough. -/
theorem isPrefixOf_take {p l : Str} (n : Nat) (h : p <+: l) (hn : p.length ≤ n) :
    p <+: l.take n := by
  obtain ⟨t, rfl⟩ := h
  rw [List.take_append_eq_append_take, List.take_of_length_le hn]
  exact ⟨t.take (n - p.length), rfl⟩

/-! ## C1 -/

/-- C1: the claim that the safety gate accepts every emergency-stop request
whatever its command, app_name and params fields fails on the code: the
always-allow test sits after the critical-verb and critical-app checks, so
an emergency-stop request whose command contains STOP is blocked in Safe
mode without confirmation, and the emergency-stop handler never runs. -/
theorem c1_emergency_stop_gate_blocks :
    MCP_INTERFACE_IsSafeCommand true rEmergStop = false ∧
    rEmergStop.type = MCP_CMD_EMERGENCY_STOP ∧
    (MCP_INTERFACE_HandleMCPRequest env0 initAppState 0 rEmergStop).resp.status = -1 ∧
    (MCP_INTERFACE_HandleMCPRequest env0 initAppState 0 rEmergStop).resp.error_msg =
      "Command blocked by safety system".toList := by
  decide

/-! ## C3 -/

/-- C3: a frame whose app_name exceeds the 19-character bound is not
rejected: decoding silently truncates the field to 19 characters, the
validator accepts the truncated request and the telemetry handler processes
it to a success response. -/
theorem c3_oversized_field_truncated_and_processed :
    (frame25.app_name.map List.length = some 25) ∧
    MCP_INTERFACE_ParseJSONRequest frame25 = some req25 ∧
    req25.app_name.length = 19 ∧
    MCP_INTERFACE_ValidateRequest req25 = true ∧
    (MCP_INTERFACE_HandleMCPRequest env0 initAppState 0 req25).resp.status = 0 := by
  decide

/-! ## C4 -/

/-- C4 counterexample: a send-command request that is critical by verb
(RESET occurs in its command) and by target app, confirmed but with the
is_critical flag unset, issued 2 time units after the last critical command
time, is accepted with a success response and CriticalCommandCount does not
move — the code never rate-limits it. -/
theorem c4_counterexample :
    sub32 12 sWindow.lastCriticalCommandTime < 5 ∧
    (critical_commands.any fun c =>
      hasSubstr c (upperize (MCP_MAX_CMD_NAME_LEN - 1) rCritVerb.command)) = true ∧
    rCritVerb.is_critical = false ∧
    (MCP_INTERFACE_HandleMCPRequest env0 sWindow 12 rCritVerb).resp.status = 0 ∧
    (MCP_INTERFACE_HandleMCPRequest env0 sWindow 12 rCritVerb).st.criticalCommandCount =
      sWindow.criticalCommandCount := by
  decide

/-- C4 amended: rate limiting is applied by the send-command handler only to
requests whose caller-set is_critical flag is true.  For such a request with
a nonempty app name: inside the 5-unit window after LastCriticalCommandTime
the handler fails with the rate-limit error and leaves the state untouched
(in particular CriticalCommandCount does not increment); outside the window
CriticalCommandCount increments and LastCriticalCommandTime becomes the
current time, whether or not the subsequent command mapping succeeds. -/
theorem c4_rate_limit_flagged_only (env : Env) (s : AppState) (time : Nat)
    (r : MCP_Request) (resp : MCP_Response) (hc : r.is_critical = true)
    (ha : r.app_name ≠ []) :
    (sub32 time s.lastCriticalCommandTime < 5 →
      (MCP_INTERFACE_HandleSendCommand env s time r resp).resp.status = -1 ∧
      (MCP_INTERFACE_HandleSendCommand env s time r resp).resp.error_msg =
        "Critical command rate limit exceeded".toList ∧
      (MCP_INTERFACE_HandleSendCommand env s time r resp).st = s) ∧
    (¬ sub32 time s.lastCriticalCommandTime < 5 →
      (MCP_INTERFACE_HandleSendCommand env s time r resp).st.criticalCommandCount =
        inc32 s.criticalCommandCount ∧
      (MCP_INTERFACE_HandleSendCommand env s time r resp).st.lastCriticalCommandTime =
        time) := by
  have hlen : (r.app_name.length == 0) = false := by
    simp only [beq_eq_false_iff_ne, ne_eq, List.length_eq_zero]
    exact ha
  constructor
  · intro hrl
    unfold MCP_INTERFACE_HandleSendCommand
    simp [hlen, hc, hrl, errResp, strncpyB]
  · intro hrl
    unfold MCP_INTERFACE_HandleSendCommand
    simp only [hlen, hc, hrl, Bool.false_eq_true, if_false, decide_eq_true_eq,
      Bool.true_and, if_true]
    rcases hm : mapCommand env r with p | msg
    · rcases p with ⟨mid, code⟩
      by_cases hco : env.sbCreateOk
      · by_cases hss : (env.sbSendStatus == 0) = true
        · simp [hm, hco, hss, hrl, okResp]
        · simp [hm, hco, hss, hrl, errResp]
      · simp [hm, hco, hrl, errResp]
    · simp [hm, hrl, errResp]

/-- The same request as the C4 counterexample but with the is_critical flag
set, making it subject to the handler's rate limiting. -/
def rCritFlag : MCP_Request := { rCritVerb with is_critical := true }

/-- Witness for C4 (amended): the flagged critical request issued 2 time
units after the last critical command time. -/
theorem c4_witness :
    (sub32 12 sWindow.lastCriticalCommandTime < 5 →
      (MCP_INTERFACE_HandleSendCommand env0 sWindow 12 rCritFlag (respInit 5 12)).resp.status =
        -1 ∧
      (MCP_INTERFACE_HandleSendCommand env0 sWindow 12 rCritFlag
        (respInit 5 12)).resp.error_msg = "Critical command rate limit exceeded".toList ∧
      (MCP_INTERFACE_HandleSendCommand env0 sWindow 12 rCritFlag (respInit 5 12)).st =
        sWindow) ∧
    (¬ sub32 12 sWindow.lastCriticalCommandTime < 5 →
      (MCP_INTERFACE_HandleSendCommand env0 sWindow 12 rCritFlag
        (respInit 5 12)).st.criticalCommandCount = inc32 sWindow.criticalCommandCount ∧
      (MCP_INTERFACE_HandleSendCommand env0 sWindow 12 rCritFlag
        (respInit 5 12)).st.lastCriticalCommandTime = 12) :=
  c4_rate_limit_flagged_only env0 sWindow 12 rCritFlag (respInit 5 12) rfl (by decide)

/-! ## C5 -/

/-- C5 counterexample: the spec scenario request (NOOP to CFE_ES, unconfirmed,
mode Safe) is not answered with success: CFE_ES is in the critical-app list,
so the safety gate blocks it. -/
theorem c5_counterexample :
    initAppState.safetyMode = true ∧
    (MCP_INTERFACE_HandleMCPRequest env0 initAppState 0 rNoop).resp.status = -1 ∧
    (MCP_INTERFACE_HandleMCPRequest env0 initAppState 0 rNoop).resp.error_msg =
      "Command blocked by safety system".toList := by
  decide

/-- The leading segment of the send-command success result for a NOOP to
CFE_ES, as assembled by the handler before the collaborator-specific
message id and command code are appended. -/
def cmdSentHead : Str :=
  "\x7b\"command_sent\": true, \"app\": \"".toList ++ "CFE_ES".toList ++
  "\", \"command\": \"".toList ++ "NOOP".toList

/-- C5 amended: the scenario request is blocked in Safe mode without
confirmation (see the counterexample); processed in Permissive mode with
the software-bus send succeeding it yields the claimed success response:
status 0, the request id echoed, and a result reporting command_sent true
for NOOP to CFE_ES. -/
theorem c5_noop_succeeds_in_permissive (env : Env) (s : AppState) (time : Nat)
    (hm : s.safetyMode = false) (hc : env.sbCreateOk = true)
    (hs : env.sbSendStatus = 0) :
    (MCP_INTERFACE_HandleMCPRequest env s time rNoop).resp.status = 0 ∧
    (MCP_INTERFACE_HandleMCPRequest env s time rNoop).resp.id = 1 ∧
    cmdSentHead <+: (MCP_INTERFACE_HandleMCPRequest env s time rNoop).resp.result := by
  have hv : MCP_INTERFACE_ValidateRequest rNoop = true := by decide
  have hg : MCP_INTERFACE_IsSafeCommand false rNoop = true := by decide
  have et : (rNoop.type == MCP_CMD_SEND_COMMAND) = true := by decide
  have ea : (rNoop.app_name.length == 0) = false := by decide
  have eb : rNoop.is_critical = false := rfl
  have ec : (rNoop.app_name == "CFE_ES".toList) = true := by decide
  have ed : (rNoop.command == "NOOP".toList) = true := by decide
  have ei : rNoop.id = 1 := rfl
  unfold MCP_INTERFACE_HandleMCPRequest
  rw [hm]
  unfold dispatchRequest
  unfold MCP_INTERFACE_HandleSendCommand mapCommand
  simp only [hv, hg, et, ea, eb, ec, ed, ei, hc, hs, Bool.not_true, Bool.false_and,
    Bool.false_eq_true, Bool.true_and, if_false, if_true, ite_false, ite_true, okResp,
    Bool.and_self, beq_self_eq_true]
  norm_num [strncpyB, sn]
  have hbase : cmdSentHead <+:
      ("\x7b\"command_sent\": true, \"app\": \"".toList ++ "CFE_ES".toList ++
       "\", \"command\": \"".toList ++ "NOOP".toList ++ "\", \"msg_id\": \"0x".toList ++
       hex04 env.cfeEsCmdMid ++ "\", \"cmd_code\": ".toList ++
       decDigits env.cfeEsNoopCC ++ "\x7d".toList) := by
    unfold cmdSentHead
    simp only [List.append_assoc]
    exact ⟨_, rfl⟩
  have hlen : cmdSentHead.length ≤ 511 := by decide
  have h1 := isPrefixOf_take 511 hbase hlen
  have h2 := isPrefixOf_take 4095 h1 (by decide)
  simpa [List.append_assoc] using h2

/-- Witness for C5 (amended): concrete Permissive-mode state and succeeding
collaborators. -/
theorem c5_witness :
    (MCP_INTERFACE_HandleMCPRequest env0 permState 0 rNoop).resp.status = 0 ∧
    (MCP_INTERFACE_HandleMCPRequest env0 permState 0 rNoop).resp.id = 1 ∧
    cmdSentHead <+: (MCP_INTERFACE_HandleMCPRequest env0 permState 0 rNoop).resp.result :=
  c5_noop_succeeds_in_permissive env0 permState 0 rfl rfl rfl

/-! ## C6 -/

/-- C6 counterexample: a write-file request processed in Safe mode without
confirmation is refused by the handler with a failure response, but no
audit notification is emitted on that branch. -/
theorem c6_counterexample :
    (MCP_INTERFACE_HandleWriteFile env0 initAppState 0 rWrite (respInit 4 0)).resp.status = -1 ∧
    (MCP_INTERFACE_HandleWriteFile env0 initAppState 0 rWrite (respInit 4 0)).events = [] := by
  decide

/-- C6 amended: the write-file handler refuses every request with a failure
response carrying an error message, and never reports success; the audit
notification accompanies the refusal exactly when the mode is Permissive or
confirmation was given. -/
theorem c6_write_file_always_refused (env : Env) (s : AppState) (time : Nat)
    (r : MCP_Request) (resp : MCP_Response) :
    (MCP_INTERFACE_HandleWriteFile env s time r resp).resp.status = -1 ∧
    (MCP_INTERFACE_HandleWriteFile env s time r resp).resp.error_msg ≠ [] ∧
    (MCP_INTERFACE_HandleWriteFile env s time r resp).ret = false ∧
    (MCP_INTERFACE_HandleWriteFile env s time r resp).events =
      (if s.safetyMode && !r.require_confirmation then []
       else [MCP_INTERFACE_SAFETY_ERR_EID]) := by
  unfold MCP_INTERFACE_HandleWriteFile
  by_cases h : s.safetyMode && !r.require_confirmation
  · simp [h, errResp, strncpyB]
  · simp [h, errResp, strncpyB]

/-! ## C2 -/

/-- C2: every read-file or write-file request whose params contains one of
the protected path prefixes is blocked by the safety gate — the gate returns
FALSE for every SafetyMode and every require_confirmation value, and the
pipeline answers with a failure response. -/
theorem c2_protected_path_always_blocked (env : Env) (s : AppState) (time : Nat)
    (r : MCP_Request) (ht : r.type = MCP_CMD_READ_FILE ∨ r.type = MCP_CMD_WRITE_FILE)
    (hp : protectedParams r.params = true) :
    MCP_INTERFACE_IsSafeCommand s.safetyMode r = false ∧
    (MCP_INTERFACE_HandleMCPRequest env s time r).resp.status = -1 := by
  have hgate : ∀ m : Bool, MCP_INTERFACE_IsSafeCommand m r = false := by
    intro m
    unfold MCP_INTERFACE_IsSafeCommand
    have htype : (r.type == MCP_CMD_WRITE_FILE || r.type == MCP_CMD_READ_FILE) = true := by
      rcases ht with h | h <;> simp [h, MCP_CMD_READ_FILE, MCP_CMD_WRITE_FILE]
    simp [htype, hp]
  refine ⟨hgate s.safetyMode, ?_⟩
  unfold MCP_INTERFACE_HandleMCPRequest
  by_cases hv : MCP_INTERFACE_ValidateRequest r = true
  · simp [hv, hgate, errResp]
  · simp [Bool.not_eq_true] at hv
    simp [hv, errResp]

/-- Witness for C2: the spec scenario request, a read-file of /etc/passwd
with confirmation given, evaluated in the initial (Safe-mode) state. -/
theorem c2_witness :
    MCP_INTERFACE_IsSafeCommand initAppState.safetyMode
      { id := 2, type := MCP_CMD_READ_FILE, app_name := [], command := [],
        params := "\"/etc/passwd\"".toList, require_confirmation := true,
        is_critical := false } = false ∧
    (MCP_INTERFACE_HandleMCPRequest env0 initAppState 0
      { id := 2, type := MCP_CMD_READ_FILE, app_name := [], command := [],
        params := "\"/etc/passwd\"".toList, require_confirmation := true,
        is_critical := false }).resp.status = -1 :=
  c2_protected_path_always_blocked env0 initAppState 0 _ (Or.inl rfl) (by decide)

/-! ## C7 -/

/-- C7: a request with id 0 is rejected by the validator before the dispatch
switch: the response is the fixed invalid-parameters failure, ErrorCounter
increments once and every other counter (and the whole rest of the state)
is untouched. -/
theorem c7_id_zero_rejected (env : Env) (s : AppState) (time : Nat) (r : MCP_Request)
    (h : r.id = 0) :
    (MCP_INTERFACE_HandleMCPRequest env s time r).resp =
      { id := 0, status := -1, result := [],
        error_msg := "Invalid request parameters".toList, timestamp := time } ∧
    (MCP_INTERFACE_HandleMCPRequest env s time r).st =
      { s with errorCounter := inc32 s.errorCounter } ∧
    (MCP_INTERFACE_HandleMCPRequest env s time r).events = [] := by
  have hv : MCP_INTERFACE_ValidateRequest r = false := by
    unfold MCP_INTERFACE_ValidateRequest
    simp [h]
  unfold MCP_INTERFACE_HandleMCPRequest
  simp [hv, errResp, h]
  decide

/-- Witness for C7: a concrete id-0 request in the initial state. -/
theorem c7_witness :
    (MCP_INTERFACE_HandleMCPRequest env0 initAppState 0
      { id := 0, type := MCP_CMD_SEND_COMMAND, app_name := [], command := [],
        params := [], require_confirmation := false, is_critical := false }).resp =
      { id := 0, status := -1, result := [],
        error_msg := "Invalid request parameters".toList, timestamp := 0 } ∧
    (MCP_INTERFACE_HandleMCPRequest env0 initAppState 0
      { id := 0, type := MCP_CMD_SEND_COMMAND, app_name := [], command := [],
        params := [], require_confirmation := false, is_critical := false }).st =
      { initAppState with errorCounter := inc32 initAppState.errorCounter } ∧
    (MCP_INTERFACE_HandleMCPRequest env0 initAppState 0
      { id := 0, type := MCP_CMD_SEND_COMMAND, app_name := [], command := [],
        params := [], require_confirmation := false, is_critical := false }).events = [] :=
  c7_id_zero_rejected env0 initAppState 0 _ rfl

/-! ## C8 -/

/-- C8: whatever the cJSON encoder does, the frame written by the response
sender stays below MCP_MAX_JSON_SIZE (the formatter refuses longer
encodings), and whenever formatting fails the sender falls back to the
fixed minimal failure frame built from the response id, a failure status, a
static error message and the timestamp. -/
theorem c8_send_response_fits (enc : MCP_Response → Option Str) (resp : MCP_Response)
    (h1 : resp.id < UINT32_MOD) (h2 : resp.timestamp < UINT32_MOD) :
    (MCP_INTERFACE_SendMCPResponse enc resp).length < MCP_MAX_JSON_SIZE ∧
    (MCP_INTERFACE_FormatJSONResponse enc resp MCP_MAX_JSON_SIZE = none →
      MCP_INTERFACE_SendMCPResponse enc resp = fallbackFrame resp.id resp.timestamp) := by
  cases hfmt : MCP_INTERFACE_FormatJSONResponse enc resp MCP_MAX_JSON_SIZE with
  | none =>
    refine ⟨?_, fun _ => ?_⟩ <;>
      first
      | (unfold MCP_INTERFACE_SendMCPResponse
         rw [hfmt]
         exact fallbackFrame_len _ _ h1 h2)
      | (unfold MCP_INTERFACE_SendMCPResponse
         rw [hfmt])
  | some out =>
    have hlen : out.length < MCP_MAX_JSON_SIZE := by
      unfold MCP_INTERFACE_FormatJSONResponse at hfmt
      cases henc : enc resp with
      | none => rw [henc] at hfmt; simp at hfmt
      | some t =>
        rw [henc] at hfmt
        by_cases ht : MCP_MAX_JSON_SIZE ≤ t.length
        · simp [ht] at hfmt
        · simp [ht] at hfmt
          subst hfmt
          omega
    constructor
    · unfold MCP_INTERFACE_SendMCPResponse
      rw [hfmt]
      exact hlen
    · intro hnone
      exact Option.noConfusion hnone

/-- Witness for C8: an encoder that always fails, applied to a concrete
response. -/
theorem c8_witness :
    (MCP_INTERFACE_SendMCPResponse (fun _ => none) (respInit 1 2)).length <
      MCP_MAX_JSON_SIZE ∧
    (MCP_INTERFACE_FormatJSONResponse (fun _ => none) (respInit 1 2) MCP_MAX_JSON_SIZE =
        none →
      MCP_INTERFACE_SendMCPResponse (fun _ => none) (respInit 1 2) =
        fallbackFrame (respInit 1 2).id (respInit 1 2).timestamp) :=
  c8_send_response_fits (fun _ => none) (respInit 1 2) (by decide) (by decide)

/-! ## C9 -/

/-- C9 counterexample: two get-telemetry requests for MCP_INTERFACE that
differ only in id, processed back to back, receive responses with equal
timestamps whose result fields differ (the second embeds the incremented
request counter), so the responses differ in more than id and timestamp. -/
theorem c9_counterexample :
    ((MCP_INTERFACE_HandleMCPRequest env0
        (MCP_INTERFACE_HandleMCPRequest env0 initAppState 3 rTel1).st 3
        { rTel1 with id := 2 }).resp.timestamp =
      (MCP_INTERFACE_HandleMCPRequest env0 initAppState 3 rTel1).resp.timestamp) ∧
    ((MCP_INTERFACE_HandleMCPRequest env0
        (MCP_INTERFACE_HandleMCPRequest env0 initAppState 3 rTel1).st 3
        { rTel1 with id := 2 }).resp.result ≠
      (MCP_INTERFACE_HandleMCPRequest env0 initAppState 3 rTel1).resp.result) := by
  decide

/-- Changing only the id of a request does not change the validator verdict
as long as both ids are nonzero. -/
theorem validate_id_congr (r : MCP_Request) (i2 : Nat) (h0 : r.id ≠ 0) (h2 : i2 ≠ 0) :
    MCP_INTERFACE_ValidateRequest { r with id := i2 } = MCP_INTERFACE_ValidateRequest r := by
  obtain ⟨rid, ty, an, cmd, ps, rc, ic⟩ := r
  simp only at h0
  unfold MCP_INTERFACE_ValidateRequest
  simp only
  rw [show (i2 == 0) = false from by simpa using h2,
      show (rid == 0) = false from by simpa using h0]

/-- The pipeline outcome for a gated get-telemetry request addressed to an
app other than MCP_INTERFACE: success response carrying the
telemetry-not-available report, request and success counters bumped. -/
theorem pipeline_telemetry_other (env : Env) (s : AppState) (time : Nat) (r : MCP_Request)
    (ht : r.type = MCP_CMD_GET_TELEMETRY) (hv : MCP_INTERFACE_ValidateRequest r = true)
    (hg : MCP_INTERFACE_IsSafeCommand s.safetyMode r = true)
    (hn : (r.app_name == "MCP_INTERFACE".toList) = false) :
    MCP_INTERFACE_HandleMCPRequest env s time r =
      ⟨{ id := r.id, status := 0,
         result := strncpyB 4095 (telemetryOtherResult r.app_name time),
         error_msg := [], timestamp := time },
       { s with requestCounter := inc32 s.requestCounter,
                successCounter := inc32 s.successCounter }, []⟩ := by
  have d0 : (MCP_CMD_GET_TELEMETRY == MCP_CMD_SEND_COMMAND) = false := by decide
  have d1 : (MCP_CMD_GET_TELEMETRY == MCP_CMD_GET_TELEMETRY) = true := by decide
  unfold MCP_INTERFACE_HandleMCPRequest dispatchRequest MCP_INTERFACE_HandleGetTelemetry
  rw [ht]
  simp [hv, hg, d0, d1, okResp]
  rw [if_neg (by simpa using hn)]

/-- C9 amended: two structurally identical requests differing only in their
(nonzero) ids, of kind get-telemetry for an app other than MCP_INTERFACE,
processed back to back within the same time tick, receive responses that are
identical except for the id (for requests whose handler output embeds the
operational counters — telemetry for MCP_INTERFACE itself — or for critical
requests subject to rate limiting, the counterexample shows the property
fails). -/
theorem c9_telemetry_idempotent (env : Env) (s : AppState) (time : Nat)
    (r : MCP_Request) (i2 : Nat) (ht : r.type = MCP_CMD_GET_TELEMETRY)
    (h0 : r.id ≠ 0) (h2 : i2 ≠ 0)
    (hn : (r.app_name == "MCP_INTERFACE".toList) = false) :
    (MCP_INTERFACE_HandleMCPRequest env (MCP_INTERFACE_HandleMCPRequest env s time r).st
      time { r with id := i2 }).resp =
    { (MCP_INTERFACE_HandleMCPRequest env s time r).resp with id := i2 } := by
  have hvc := validate_id_congr r i2 h0 h2
  by_cases hv : MCP_INTERFACE_ValidateRequest r = true
  · by_cases hg : MCP_INTERFACE_IsSafeCommand s.safetyMode r = true
    · have p1 := pipeline_telemetry_other env s time r ht hv hg hn
      have p2 := pipeline_telemetry_other env
        { s with requestCounter := inc32 s.requestCounter,
                 successCounter := inc32 s.successCounter }
        time { r with id := i2 } ht (by rw [hvc]; exact hv) hg hn
      simp only [p1]
      simp only [p2]
    · have hg' : MCP_INTERFACE_IsSafeCommand s.safetyMode r = false := by
        simpa [Bool.not_eq_true] using hg
      have hgc : MCP_INTERFACE_IsSafeCommand s.safetyMode { r with id := i2 } =
          MCP_INTERFACE_IsSafeCommand s.safetyMode r := rfl
      unfold MCP_INTERFACE_HandleMCPRequest
      simp [hv, hvc, hgc, hg', errResp]
  · have hv' : MCP_INTERFACE_ValidateRequest r = false := by
      simpa [Bool.not_eq_true] using hv
    unfold MCP_INTERFACE_HandleMCPRequest
    simp [hv', hvc, errResp]

/-- Witness for C9 (amended): two telemetry requests for FOO_APP with ids 1
and 2 from the initial state. -/
theorem c9_witness :
    (MCP_INTERFACE_HandleMCPRequest env0
      (MCP_INTERFACE_HandleMCPRequest env0 initAppState 0 rTelFoo).st 0
      { rTelFoo with id := 2 }).resp =
    { (MCP_INTERFACE_HandleMCPRequest env0 initAppState 0 rTelFoo).resp with id := 2 } :=
  c9_telemetry_idempotent env0 initAppState 0 rTelFoo 2 rfl (by decide) (by decide)
    (by decide)

/-! ## C10 -/

theorem firstFree_spec : ∀ (l : List Int) (j : Nat), firstFree l = some j →
    j < l.length ∧ l.get? j = some (-1) := by
  intro l
  induction l with
  | nil => intro j h; simp [firstFree] at h
  | cons x xs ih =>
    intro j h
    unfold firstFree at h
    by_cases hx : (x == -1) = true
    · rw [if_pos hx] at h
      obtain rfl : 0 = j := Option.some.inj h
      refine ⟨by simp, ?_⟩
      simp only [List.get?]
      rw [show x = -1 from by simpa using hx]
    · rw [if_neg hx] at h
      rcases Option.map_eq_some'.mp h with ⟨j', hj', rfl⟩
      obtain ⟨hlt, hget⟩ := ih j' hj'
      exact ⟨by simpa using Nat.succ_lt_succ hlt, by simpa using hget⟩

theorem countOcc_set_fill : ∀ (l : List Int) (j : Nat) (v : Int),
    l.get? j = some (-1) → (v != -1) = true →
    countOcc (l.set j v) = countOcc l + 1 := by
  intro l
  induction l with
  | nil => intro j v h _; simp at h
  | cons x xs ih =>
    intro j v h hv
    cases j with
    | zero =>
      obtain rfl : x = -1 := by simpa using h
      simp [countOcc, List.set, List.filter, hv]
    | succ j =>
      have hx := h
      simp only [List.get?] at hx
      have := ih j v hx hv
      simp only [List.set, countOcc, List.filter]
      by_cases hxx : (x != -1) = true
      · simp only [hxx, List.length_cons]
        unfold countOcc at this
        omega
      · simp only [Bool.not_eq_true] at hxx
        simp only [hxx]
        unfold countOcc at this
        omega

theorem countOcc_set_release : ∀ (l : List Int) (j : Nat) (v : Int),
    l.get? j = some v → (v != -1) = true →
    countOcc (l.set j (-1)) + 1 = countOcc l := by
  intro l
  induction l with
  | nil => intro j v h _; simp at h
  | cons x xs ih =>
    intro j v h hv
    cases j with
    | zero =>
      obtain rfl : x = v := by simpa using h
      simp [countOcc, List.set, List.filter, hv]
    | succ j =>
      have hx := h
      simp only [List.get?] at hx
      have := ih j v hx hv
      simp only [List.set, countOcc, List.filter]
      by_cases hxx : (x != -1) = true
      · simp only [hxx, List.length_cons]
        unfold countOcc at this
        omega
      · simp only [Bool.not_eq_true] at hxx
        simp only [hxx]
        unfold countOcc at this
        omega

theorem countOcc_le_length (l : List Int) : countOcc l ≤ l.length :=
  List.length_filter_le _ l

/-- C10: in every state the connection loop can reach from initialization,
ActiveClients equals the number of socket-table entries different from -1,
the table keeps its four slots, and hence ActiveClients never exceeds
MCP_MAX_CLIENTS. -/
theorem c10_active_clients_invariant (s : ConnState) (h : ReachConn s) :
    s.activeClients = countOcc s.clientSockets ∧
    s.clientSockets.length = MCP_MAX_CLIENTS ∧
    s.activeClients ≤ MCP_MAX_CLIENTS := by
  induction h with
  | init => exact ⟨by decide, by decide, by decide⟩
  | step s e hs ih =>
    obtain ⟨ihc, ihl, ihb⟩ := ih
    cases e with
    | accept fd =>
      simp only [stepConn]
      cases hff : firstFree s.clientSockets with
      | none => exact ⟨ihc, ihl, ihb⟩
      | some j =>
        dsimp only
        obtain ⟨hj, hget⟩ := firstFree_spec _ _ hff
        have hfd : ((Int.ofNat fd) != -1) = true := by
          simp only [bne_iff_ne, ne_eq, Int.ofNat_eq_natCast]
          intro hcontra
          omega
        have hcount := countOcc_set_fill _ _ _ hget hfd
        have hlenset : (s.clientSockets.set j (Int.ofNat fd)).length =
            s.clientSockets.length := List.length_set _ _ _
        have hocc : countOcc (s.clientSockets.set j (Int.ofNat fd)) ≤ MCP_MAX_CLIENTS := by
          have := countOcc_le_length (s.clientSockets.set j (Int.ofNat fd))
          rw [hlenset, ihl] at this
          exact this
        refine ⟨?_, by rw [hlenset, ihl], ?_⟩
        · rw [hcount, ← ihc]
          have hb : s.activeClients ≤ MCP_MAX_CLIENTS := ihb
          unfold inc32 UINT32_MOD
          unfold MCP_MAX_CLIENTS at hb
          omega
        · rw [hcount, ← ihc] at hocc
          unfold inc32 UINT32_MOD
          unfold MCP_MAX_CLIENTS at hocc ⊢
          omega
    | closeSlot i =>
      simp only [stepConn]
      cases hg : s.clientSockets.get? i with
      | none => exact ⟨ihc, ihl, ihb⟩
      | some v =>
        dsimp only
        by_cases hv : (v == -1) = true
        · rw [if_pos hv]
          exact ⟨ihc, ihl, ihb⟩
        · rw [if_neg hv]
          dsimp only
          have hvne : (v != -1) = true := by
            simp only [bne, hv]
            rfl
          have hcount := countOcc_set_release _ _ _ hg hvne
          have hlenset : (s.clientSockets.set i (-1)).length =
              s.clientSockets.length := List.length_set _ _ _
          refine ⟨?_, by rw [hlenset, ihl], ?_⟩
          · rw [← ihc] at hcount
            have hb : s.activeClients ≤ MCP_MAX_CLIENTS := ihb
            unfold dec32 UINT32_MOD
            unfold MCP_MAX_CLIENTS at hb
            omega
          · rw [← ihc] at hcount
            have hb : s.activeClients ≤ MCP_MAX_CLIENTS := ihb
            unfold dec32 UINT32_MOD
            unfold MCP_MAX_CLIENTS at hb ⊢
            omega
    | dataReady i => exact ⟨ihc, ihl, ihb⟩

/-- Witness for C10: the invariant evaluated on the reachable state obtained
by accepting one client from the initial state. -/
theorem c10_witness :
    (stepConn initConn (ConnEvent.accept 5)).activeClients =
      countOcc (stepConn initConn (ConnEvent.accept 5)).clientSockets ∧
    (stepConn initConn (ConnEvent.accept 5)).clientSockets.length = MCP_MAX_CLIENTS ∧
    (stepConn initConn (ConnEvent.accept 5)).activeClients ≤ MCP_MAX_CLIENTS :=
  c10_active_clients_invariant _ (ReachConn.step initConn (ConnEvent.accept 5) ReachConn.init)

end MCP
